import Mathlib

/-!
Shallow embedding of the signed-data engine of `src/cms.c` (libksba).

Modelling conventions:
* C error codes (`KsbaError`, an int; 0 = success) become `Option KsbaError`
  (`none` = success) when a function also mutates the container, or
  `Except KsbaError α` for pure accessors returning a value.
* The special `return -1` in `ksba_cms_hash_signed_attrs` is modelled by the
  dedicated constructor `KsbaError.errMinusOne`.
* The container `struct ksba_cms_s` becomes the structure `CMS`.  Pointers
  that are only tested against NULL become `Option _` / `Bool` fields.
* External collaborators (the ASN.1 codec `_ksba_asn_find_node`,
  `_ksba_asn_find_type_value`, `_ksba_asn_expand_tree`, the DER encoder
  `_ksba_der_*`, the BER writer `_ksba_ber_write_tl`, the content-info
  parser `_ksba_cms_parse_content_info` and the two stage parsers
  `_ksba_cms_parse_signed_data_part_1/2`) live in other compilation units;
  they are passed to each embedded function as explicit function/value
  parameters, so every theorem quantifies over their behaviour.
* The caller-supplied hash callback `hash_fnc` is modelled by returning the
  exact byte sequence that the engine feeds to it.
* Machine bytes are `Nat` values; byte extraction from a C int uses
  explicit `/ 2 ^ k % 256`.
-/

/-- Error codes used by `cms.c` (the relevant subset of `KsbaError`). -/
inductive KsbaError where
  | invalidValue
  | conflict
  | unknownCMSObject
  | unsupportedCMSObject
  | invalidState
  | bug
  | missingAction
  | missingValue
  | elementNotFound
  | noData
  | noValue
  | notImplemented
  | valueNotFound
  | duplicateValue
  | invalidCMSObject
  | outOfCore
  | generalError
  | invalidIndex
  | errMinusOne
  deriving DecidableEq, Repr

/-- The stop reasons of the suspension protocol (`KsbaStopReason`).
`none` models the zero value a fresh container holds (`!cms->stop_reason`). -/
inductive KsbaStopReason where
  | none
  | running
  | gotContent
  | needHash
  | beginData
  | endData
  | needSig
  | ready
  deriving DecidableEq, Repr

/-- Content types (`KsbaContentType`). -/
inductive ContentType where
  | data
  | signedData
  | envelopedData
  | digestedData
  | encryptedData
  | authData
  deriving DecidableEq, Repr

/-- Tags naming the handler functions a dispatcher row can install
(`ct_parse_data` / `ct_build_data`, ..., depending on direction). -/
inductive HandlerTag where
  | hData
  | hSignedData
  | hEnvelopedData
  | hDigestedData
  | hEncryptedData
  deriving DecidableEq, Repr

/-- ASN.1 node types used by `cms.c` (`TYPE_SET_OF`, `TYPE_OCTET_STRING`,
`TYPE_SEQUENCE`; everything else is collapsed into `other`). -/
inductive AsnType where
  | setOf
  | octetString
  | sequence
  | other
  deriving DecidableEq, Repr

/-- An ASN.1 node (`AsnNode`) as used by `cms.c`: value type, byte offset
into the backing image (`none` models `off == -1`, i.e. no encoding),
header length `nhdr`, content length `len`, and the `down` / `right`
links of the C tree. -/
inductive AsnNode where
  | mk : AsnType → Option Nat → Nat → Nat → Option AsnNode → Option AsnNode → AsnNode

def AsnNode.type : AsnNode → AsnType
  | .mk t _ _ _ _ _ => t

def AsnNode.off : AsnNode → Option Nat
  | .mk _ o _ _ _ _ => o

def AsnNode.nhdr : AsnNode → Nat
  | .mk _ _ h _ _ _ => h

def AsnNode.len : AsnNode → Nat
  | .mk _ _ _ l _ _ => l

def AsnNode.down : AsnNode → Option AsnNode
  | .mk _ _ _ _ d _ => d

def AsnNode.right : AsnNode → Option AsnNode
  | .mk _ _ _ _ _ r => r

/-- A signer record (`struct certlist_s`): the owned certificate (only its
presence matters to `cms.c`'s control flow, so it is `Option Unit`) and the
preset message digest (`msg_digest` together with `msg_digest_len`; the C
fixed-capacity buffer is a list whose length is `msg_digest_len`).  The
`attr.root` / `attr.image` cache filled during a build is not tracked: no
code path embedded here reads it back (only `build_signed_data_rest`
does, and its behaviour is not part of the claims). -/
structure CertListEntry where
  cert : Option Unit
  msg_digest : List Nat
  deriving DecidableEq, Repr

/-- The container (`struct ksba_cms_s`).  `signer_info_root` /
`signer_info_image` model the `signer_info.root` / `.image` pair;
`signer_info_cache_digest_algo` models `signer_info.cache.digest_algo`;
`hash_fnc` records whether a hash callback is registered;
`digest_algos` is the `oidlist_s` list (each entry's `oid` pointer is
nullable, hence `Option String`). -/
structure CMS where
  reader : Bool := false
  writer : Bool := false
  stop_reason : KsbaStopReason := KsbaStopReason.none
  content_oid : Option String := Option.none
  content_ct : Option ContentType := Option.none
  content_handler : Option HandlerTag := Option.none
  encap_cont_type : Option String := Option.none
  digest_algos : List (Option String) := []
  cert_list : List CertListEntry := []
  signer_info_root : Option AsnNode := Option.none
  signer_info_image : List Nat := []
  signer_info_cache_digest_algo : Option String := Option.none
  data_digest : Option (List Nat) := Option.none
  detached_signature : Bool := false
  hash_fnc : Bool := false

/-- One row of the static dispatcher table `content_handlers[]`. -/
structure ContentRow where
  oid : String
  ct : ContentType
  parse_handler : Option HandlerTag
  build_handler : Option HandlerTag
  deriving DecidableEq

/-- The dispatcher table `content_handlers[]` of `cms.c` (the `{NULL}`
terminator of the C array is implicit in the list end). -/
def content_handlers : List ContentRow :=
  [ ⟨"1.2.840.113549.1.7.1", ContentType.data,
      some HandlerTag.hData, some HandlerTag.hData⟩,
    ⟨"1.2.840.113549.1.7.2", ContentType.signedData,
      some HandlerTag.hSignedData, some HandlerTag.hSignedData⟩,
    ⟨"1.2.840.113549.1.7.3", ContentType.envelopedData,
      some HandlerTag.hEnvelopedData, some HandlerTag.hEnvelopedData⟩,
    ⟨"1.2.840.113549.1.7.5", ContentType.digestedData,
      some HandlerTag.hDigestedData, some HandlerTag.hDigestedData⟩,
    ⟨"1.2.840.113549.1.7.6", ContentType.encryptedData,
      some HandlerTag.hEncryptedData, some HandlerTag.hEncryptedData⟩,
    ⟨"1.2.840.113549.1.9.16.1.2", ContentType.authData,
      Option.none, Option.none⟩ ]

/-- The string OID `oidstr_messageDigest` of `cms.c`. -/
def oidstr_messageDigest : String := "1.2.840.113549.1.9.4"

/-- The DER-encoded OID `oid_messageDigest` of `cms.c`. -/
def oid_messageDigest : List Nat :=
  [0x2A, 0x86, 0x48, 0x86, 0xF7, 0x0D, 0x01, 0x09, 0x04]

/-- Internal states of `ct_parse_signed_data`. -/
inductive ParseState where
  | sSTART
  | sGOT_HASH
  | sIN_DATA
  | sERROR
  deriving DecidableEq, Repr

/-- Internal states of `ct_build_signed_data`. -/
inductive BuildState where
  | sSTART
  | sDATAREADY
  | sGOTSIG
  | sERROR
  deriving DecidableEq, Repr

/-- Embeds `ct_parse_signed_data`.  `part1` and `part2` model the external
stage parsers `_ksba_cms_parse_signed_data_part_1` and `_part_2` (each
returns an error code and the mutated container).  The function follows
the three phases of the C code: compute the internal state from the
stored stop reason (resetting it to `RUNNING`), run the state action, and
compute the new stop reason. -/
def ct_parse_signed_data (part1 part2 : CMS → Option KsbaError × CMS)
    (cms0 : CMS) : Option KsbaError × CMS :=
  let stop := cms0.stop_reason
  let cms : CMS := { cms0 with stop_reason := KsbaStopReason.running }
  let stErr : ParseState × Option KsbaError :=
    match stop with
    | .gotContent => (ParseState.sSTART, Option.none)
    | .needHash => (ParseState.sGOT_HASH, Option.none)
    | .beginData =>
        if cms.hash_fnc then (ParseState.sIN_DATA, Option.none)
        else (ParseState.sERROR, some KsbaError.missingAction)
    | .endData => (ParseState.sGOT_HASH, Option.none)
    | .running => (ParseState.sERROR, some KsbaError.invalidState)
    | .none => (ParseState.sERROR, Option.none)
    | _ => (ParseState.sERROR, some KsbaError.bug)
  match stErr.2 with
  | some e => (some e, cms)
  | Option.none =>
    let acted : Option KsbaError × CMS :=
      match stErr.1 with
      | ParseState.sSTART => part1 cms
      | ParseState.sGOT_HASH => part2 cms
      | ParseState.sIN_DATA => (Option.none, cms)
      | ParseState.sERROR => (some KsbaError.invalidState, cms)
    match acted with
    | (some e, c) => (some e, c)
    | (Option.none, c) =>
      let newStop : KsbaStopReason :=
        match stErr.1 with
        | ParseState.sSTART =>
            if c.detached_signature && c.data_digest.isNone
            then KsbaStopReason.needHash else KsbaStopReason.beginData
        | ParseState.sIN_DATA => KsbaStopReason.endData
        | ParseState.sGOT_HASH => KsbaStopReason.ready
        | ParseState.sERROR => stop
      (Option.none, { c with stop_reason := newStop })

/-- Embeds `ct_build_signed_data`.  `hdr` models the call to
`build_signed_data_header` (which writes to the external writer and never
assigns to any container field, so it returns only an error code);
`attrs` models `build_signed_data_attributes` and `rest` models
`build_signed_data_rest` (both may mutate the container). -/
def ct_build_signed_data (hdr : CMS → Option KsbaError)
    (attrs rest : CMS → Option KsbaError × CMS) (cms0 : CMS) :
    Option KsbaError × CMS :=
  let stop := cms0.stop_reason
  let cms : CMS := { cms0 with stop_reason := KsbaStopReason.running }
  let stErr : BuildState × Option KsbaError :=
    match stop with
    | .gotContent => (BuildState.sSTART, Option.none)
    | .beginData => (BuildState.sDATAREADY, Option.none)
    | .endData => (BuildState.sDATAREADY, Option.none)
    | .needSig => (BuildState.sGOTSIG, Option.none)
    | .running => (BuildState.sERROR, some KsbaError.invalidState)
    | .none => (BuildState.sERROR, Option.none)
    | _ => (BuildState.sERROR, some KsbaError.bug)
  match stErr.2 with
  | some e => (some e, cms)
  | Option.none =>
    let acted : Option KsbaError × CMS :=
      match stErr.1 with
      | BuildState.sSTART =>
          let d : Bool :=
            match cms.cert_list with
            | [] => false
            | cl :: _ => !cl.msg_digest.isEmpty
          let c1 : CMS := { cms with detached_signature := d }
          (hdr c1, c1)
      | BuildState.sDATAREADY => attrs cms
      | BuildState.sGOTSIG => rest cms
      | BuildState.sERROR => (some KsbaError.invalidState, cms)
    match acted with
    | (some e, c) => (some e, c)
    | (Option.none, c) =>
      let newStop : KsbaStopReason :=
        match stErr.1 with
        | BuildState.sSTART =>
            if c.detached_signature then KsbaStopReason.endData
            else KsbaStopReason.beginData
        | BuildState.sDATAREADY => KsbaStopReason.needSig
        | BuildState.sGOTSIG => KsbaStopReason.ready
        | BuildState.sERROR => stop
      (Option.none, { c with stop_reason := newStop })

/-- Embeds `ksba_cms_parse`.  `parseContentInfo` models the external
`_ksba_cms_parse_content_info` (it reads the outer ContentInfo and sets
`content.oid` on the container); `runHandler` models the indirect call
through the installed `content.handler` function pointer.  The result
triple is (returned error, `*r_stopreason`, mutated container): the C
code sets `*r_stopreason = KSBA_SR_RUNNING` first and only overwrites it
with `cms->stop_reason` on success. -/
def ksba_cms_parse (parseContentInfo : CMS → Option KsbaError × CMS)
    (runHandler : HandlerTag → CMS → Option KsbaError × CMS)
    (cms : CMS) : Option KsbaError × KsbaStopReason × CMS :=
  if cms.stop_reason = KsbaStopReason.none then
    match parseContentInfo cms with
    | (some e, c1) => (some e, KsbaStopReason.running, c1)
    | (Option.none, c1) =>
      match content_handlers.find? (fun row => c1.content_oid = some row.oid) with
      | Option.none => (some KsbaError.unknownCMSObject, KsbaStopReason.running, c1)
      | some row =>
        match row.parse_handler with
        | Option.none =>
            (some KsbaError.unsupportedCMSObject, KsbaStopReason.running, c1)
        | some h =>
          let c2 : CMS :=
            { c1 with
              content_ct := some row.ct
              content_handler := some h
              stop_reason := KsbaStopReason.gotContent }
          (Option.none, c2.stop_reason, c2)
  else
    match cms.content_handler with
    | some h =>
      match runHandler h cms with
      | (some e, c1) => (some e, KsbaStopReason.running, c1)
      | (Option.none, c1) => (Option.none, c1.stop_reason, c1)
    | Option.none => (some KsbaError.unsupportedCMSObject, KsbaStopReason.running, cms)

/-- Embeds the sibling walk of `build_signed_data_attributes` and
`build_signed_data_rest`:
`for (n = n->down->down; n && n->type != TYPE_SEQUENCE; n = n->right)`. -/
def findSequenceRight : Option AsnNode → Option AsnNode
  | Option.none => Option.none
  | some (.mk t o h l d r) =>
    if t = AsnType.sequence then some (AsnNode.mk t o h l d r)
    else findSequenceRight r

/-- Results of the external collaborators invoked by
`build_signed_data_attributes`, one field per call site, in source order.
`expandAttribute` / `expandSignerInfos` take the signer index because a
fresh tree is expanded per loop iteration. -/
structure AttrExt where
  writeEndTag : Option KsbaError
  createTree : Option KsbaError
  expandAttribute : Nat → Option AsnNode
  findAttrType : AsnNode → Option AsnNode
  storeOid : AsnNode → String → Option KsbaError
  findAttrValues : AsnNode → Option AsnNode
  storeOctetString : AsnNode → List Nat → Option KsbaError
  encodeAttr : AsnNode → Except KsbaError (List Nat)
  expandSignerInfos : Nat → Option AsnNode
  findSignedAttrs : Option AsnNode → Option AsnNode
  copyTree : AsnNode → AsnNode → List Nat → Option KsbaError
  encodeRoot : Option AsnNode → Except KsbaError (List Nat)

/-- Outcome of `build_signed_data_attributes`: success with the mutated
container, an error return, or a failure of the C assertion
`assert (certlist && certlist->msg_digest_len)` (which aborts the
process instead of returning). -/
inductive BResult where
  | ok : CMS → BResult
  | error : KsbaError → BResult
  | assertFailed : BResult

/-- The per-signer loop of `build_signed_data_attributes`, walking
`cms->cert_list` and `cms->digest_algos` in lockstep.  On each iteration
the container's `signer_info` pair is replaced by the freshly encoded
`SignerInfos` tree (the source frees the previous pair first). -/
def build_attrs_loop (ext : AttrExt) (cms : CMS) (signer : Nat) :
    List CertListEntry → List (Option String) → BResult
  | [], _ => BResult.ok cms
  | cl :: cls, digests =>
    match digests with
    | [] => BResult.error KsbaError.missingValue
    | dOid :: drest =>
      if cl.cert.isNone || dOid.isNone then BResult.error KsbaError.bug
      else
        match ext.expandAttribute signer with
        | Option.none => BResult.error KsbaError.elementNotFound
        | some attr =>
          match ext.findAttrType attr with
          | Option.none => BResult.error KsbaError.elementNotFound
          | some nAttrType =>
            match ext.storeOid nAttrType oidstr_messageDigest with
            | some e => BResult.error e
            | Option.none =>
              match ext.findAttrValues attr with
              | Option.none => BResult.error KsbaError.elementNotFound
              | some nAttrValues =>
                match nAttrValues.down with
                | Option.none => BResult.error KsbaError.elementNotFound
                | some nVal =>
                  if cl.msg_digest.isEmpty then BResult.assertFailed
                  else
                    match ext.storeOctetString nVal cl.msg_digest with
                    | some e => BResult.error e
                    | Option.none =>
                      match ext.encodeAttr attr with
                      | Except.error e => BResult.error e
                      | Except.ok image =>
                        let root := ext.expandSignerInfos signer
                        match ext.findSignedAttrs root with
                        | Option.none => BResult.error KsbaError.elementNotFound
                        | some nSig =>
                          match nSig.down with
                          | Option.none => BResult.error KsbaError.elementNotFound
                          | some nSigDown =>
                            match findSequenceRight nSigDown.down with
                            | Option.none => BResult.error KsbaError.elementNotFound
                            | some nTarget =>
                              match ext.copyTree nTarget attr image with
                              | some e => BResult.error e
                              | Option.none =>
                                match ext.encodeRoot root with
                                | Except.error e => BResult.error e
                                | Except.ok image2 =>
                                  build_attrs_loop ext
                                    { cms with
                                      signer_info_root := root
                                      signer_info_image := image2 }
                                    (signer + 1) cls drest

/-- Embeds `build_signed_data_attributes`: write the end-of-contents tag
closing the inner content, create the `cms` ASN.1 module tree, check the
signer and digest-algorithm lists, then run the per-signer loop. -/
def build_signed_data_attributes (ext : AttrExt) (cms : CMS) : BResult :=
  match ext.writeEndTag with
  | some e => BResult.error e
  | Option.none =>
    match ext.createTree with
    | some e => BResult.error e
    | Option.none =>
      match cms.cert_list with
      | [] => BResult.error KsbaError.missingValue
      | _ :: _ =>
        match cms.digest_algos with
        | [] => BResult.error KsbaError.missingValue
        | _ :: _ => build_attrs_loop ext cms 0 cms.cert_list cms.digest_algos

/-- Embeds `ksba_cms_hash_signed_attrs`.  `findNode` models
`_ksba_asn_find_node (cms->signer_info.root, "SignerInfos..signedAttrs")`.
The returned list is the byte sequence fed to the caller's `hash_fnc`
across the two callback invocations: the single SET tag byte `0x31`,
then `nhdr + len - 1` bytes of the backing image starting at `off + 1`.
The C `return -1` for a nonzero index is `errMinusOne`. -/
def ksba_cms_hash_signed_attrs (cms : CMS) (idx : Nat)
    (findNode : Option AsnNode → Option AsnNode) :
    Except KsbaError (List Nat) :=
  if !cms.hash_fnc then Except.error KsbaError.missingAction
  else if idx ≠ 0 then Except.error KsbaError.errMinusOne
  else
    match findNode cms.signer_info_root with
    | Option.none => Except.error KsbaError.noValue
    | some n =>
      match n.off with
      | Option.none => Except.error KsbaError.noValue
      | some off =>
        Except.ok
          (0x31 :: ((cms.signer_info_image.drop (off + 1)).take (n.nhdr + n.len - 1)))

/-- The structural test of `ksba_cms_get_message_digest` on the attribute
value found for `messageDigest`:
`n->type == TYPE_SET_OF && n->down && n->down->type == TYPE_OCTET_STRING
&& !n->down->right` (RFC 2630 11.2: a SET holding exactly one OCTET
STRING). -/
def digestShapeOk (n : AsnNode) : Bool :=
  match n.down with
  | Option.none => false
  | some nd =>
    decide (n.type = AsnType.setOf) && decide (nd.type = AsnType.octetString)
      && nd.right.isNone

/-- Embeds `ksba_cms_get_message_digest`.  `findSignedAttrs` models
`_ksba_asn_find_node (root, "SignerInfos..signedAttrs")`; `findTypeValue
nsiginfo k` models `_ksba_asn_find_type_value (image, nsiginfo, k,
oid_messageDigest, DIM(oid_messageDigest))`, i.e. the `k`-th occurrence
of the `messageDigest` attribute.  `Except.ok Option.none` models the C
success return with `*r_digest = NULL` when `signedAttrs` is absent
(the element is optional). -/
def ksba_cms_get_message_digest (cms : CMS) (idx : Nat)
    (findSignedAttrs : AsnNode → Option AsnNode)
    (findTypeValue : AsnNode → Nat → Option AsnNode) :
    Except KsbaError (Option (List Nat)) :=
  match cms.signer_info_root with
  | Option.none => Except.error KsbaError.noData
  | some root =>
    if idx ≠ 0 then Except.error KsbaError.notImplemented
    else
      match findSignedAttrs root with
      | Option.none => Except.ok Option.none
      | some nsiginfo =>
        match findTypeValue nsiginfo 0 with
        | Option.none => Except.error KsbaError.valueNotFound
        | some n =>
          if (findTypeValue nsiginfo 1).isSome then
            Except.error KsbaError.duplicateValue
          else if !digestShapeOk n then Except.error KsbaError.invalidCMSObject
          else
            match n.down with
            | Option.none => Except.error KsbaError.invalidCMSObject
            | some nd =>
              match nd.off with
              | Option.none => Except.error KsbaError.bug
              | some o =>
                Except.ok
                  (some ((cms.signer_info_image.drop (o + nd.nhdr)).take nd.len))

/-- Embeds `ksba_cms_get_issuer_serial`.  `wantIssuer` / `wantSerial`
model the nullability of the `r_issuer` / `r_serial` out parameters.
`findIssuer` and `findSerial` model `_ksba_asn_find_node` on
`"SignerInfos..sid.issuerAndSerialNumber.issuer"` and `"...serialNumber"`;
`dnToStr` models the `_ksba_dn_to_str` call on the dereferenced issuer
choice node.  Note: the source never examines `idx`; the parameter is
kept to mirror the C signature.  The serial output is the content length
as four big-endian bytes followed by the `len` content bytes of the
serial node, exactly as the `memcpy` builds it. -/
def ksba_cms_get_issuer_serial (cms : CMS) (idx : Nat)
    (wantIssuer wantSerial : Bool)
    (findIssuer : Option AsnNode) (dnToStr : Except KsbaError String)
    (findSerial : Option AsnNode) :
    Except KsbaError (Option String × Option (List Nat)) :=
  match cms.signer_info_root with
  | Option.none => Except.error KsbaError.noData
  | some _ =>
    let issuerStep : Except KsbaError (Option String) :=
      if !wantIssuer then Except.ok Option.none
      else
        match findIssuer with
        | Option.none => Except.error KsbaError.noValue
        | some n =>
          match n.down with
          | Option.none => Except.error KsbaError.noValue
          | some nd =>
            match nd.off with
            | Option.none => Except.error KsbaError.generalError
            | some _ =>
              match dnToStr with
              | Except.error e => Except.error e
              | Except.ok s => Except.ok (some s)
    match issuerStep with
    | Except.error e => Except.error e
    | Except.ok issuer =>
      if !wantSerial then Except.ok (issuer, Option.none)
      else
        match findSerial with
        | Option.none => Except.error KsbaError.noValue
        | some n =>
          match n.off with
          | Option.none => Except.error KsbaError.generalError
          | some off =>
            let lenBytes : List Nat :=
              [n.len / 2 ^ 24 % 256, n.len / 2 ^ 16 % 256,
               n.len / 2 ^ 8 % 256, n.len % 256]
            Except.ok (issuer,
              some (lenBytes ++
                (cms.signer_info_image.drop (off + n.nhdr)).take n.len))

/-- Embeds `ksba_cms_get_digest_algo`.  `findAlgo` models
`_ksba_asn_find_node (root, "SignerInfos..digestAlgorithm.algorithm")`
and `oidNodeToStr` models `_ksba_oid_node_to_str (image, n)` (which
accepts a NULL node).  Returns the C return value together with the
mutated container: a successfully resolved OID string is memoised in
`signer_info.cache.digest_algo` and every later call returns the cached
string itself. -/
def ksba_cms_get_digest_algo (cms : CMS) (idx : Nat)
    (findAlgo : Option AsnNode) (oidNodeToStr : Option AsnNode → Option String) :
    Option String × CMS :=
  match cms.signer_info_root with
  | Option.none => (Option.none, cms)
  | some _ =>
    if idx ≠ 0 then (Option.none, cms)
    else
      match cms.signer_info_cache_digest_algo with
      | some cached => (some cached, cms)
      | Option.none =>
        match oidNodeToStr findAlgo with
        | some algo =>
            (some algo, { cms with signer_info_cache_digest_algo := some algo })
        | Option.none => (Option.none, cms)

/-! Concrete fixtures used by witnesses and counterexamples. -/

/-- A state action that succeeds and leaves the container unchanged. -/
def actOk : CMS → Option KsbaError × CMS := fun c => (Option.none, c)

/-- A state action that fails with `KSBA_Bug` and leaves the container
unchanged (it preserves `stop_reason`, as the real stage parsers do). -/
def actBug : CMS → Option KsbaError × CMS := fun c => (some KsbaError.bug, c)

/-- A `build_signed_data_header` run that succeeds. -/
def hdrOk : CMS → Option KsbaError := fun _ => Option.none

/-- A plain ASN.1 node with no encoding and no links. -/
def nodePlain : AsnNode :=
  AsnNode.mk AsnType.other Option.none 0 0 Option.none Option.none

/-- A node whose `down` link is `nodePlain`. -/
def nodeWithDown : AsnNode :=
  AsnNode.mk AsnType.other Option.none 0 0 (some nodePlain) Option.none

/-- The `signedAttrs` node of the hashing fixture: encoded at offset 0
with a 2-byte header and 3 content bytes. -/
def nC1 : AsnNode := AsnNode.mk AsnType.other (some 0) 2 3 Option.none Option.none

/-- Container for the hashing fixture: hash callback registered and a
5-byte `signer_info` image. -/
def cmsC1 : CMS :=
  { hash_fnc := true
    signer_info_root := some nodePlain
    signer_info_image := [0xA0, 0x03, 0x01, 0x02, 0x03] }

/-- A find that locates `nC1`. -/
def findC1 : Option AsnNode → Option AsnNode := fun _ => some nC1

/-- Container with a parsed `SignerInfos` tree for the accessor fixtures. -/
def cmsMD : CMS :=
  { signer_info_root := some nodePlain
    signer_info_image := [10, 11, 12, 13, 14, 15, 16] }

/-- A `signedAttrs` lookup that succeeds. -/
def fsaMD : AsnNode → Option AsnNode := fun _ => some nodePlain

/-- A `messageDigest` search finding an attribute at every occurrence
index: a duplicate. -/
def ftvDup : AsnNode → Nat → Option AsnNode := fun _ _ => some nodePlain

/-- A `messageDigest` search finding exactly one attribute, whose value
node is not a SET OF one OCTET STRING. -/
def ftvBad : AsnNode → Nat → Option AsnNode :=
  fun _ k => if k = 0 then some nodePlain else Option.none

/-- A `messageDigest` search finding no attribute. -/
def ftvNone : AsnNode → Nat → Option AsnNode := fun _ _ => Option.none

/-- The serial-number node of the issuer/serial fixture: offset 2,
2-byte header, 3 content bytes. -/
def nSerC8 : AsnNode :=
  AsnNode.mk AsnType.other (some 2) 2 3 Option.none Option.none

/-- Container for the `ct_build_signed_data` START fixture: two signers,
where only the second (earlier-added) one has a preset message digest. -/
def cmsC2 : CMS :=
  { stop_reason := KsbaStopReason.gotContent
    cert_list := [⟨some (), []⟩, ⟨some (), [7]⟩] }

/-- External results for `build_signed_data_attributes` in which every
collaborator call succeeds. -/
def extOkC5 : AttrExt :=
  { writeEndTag := Option.none
    createTree := Option.none
    expandAttribute := fun _ => some nodePlain
    findAttrType := fun _ => some nodePlain
    storeOid := fun _ _ => Option.none
    findAttrValues := fun _ => some nodeWithDown
    storeOctetString := fun _ _ => Option.none
    encodeAttr := fun _ => Except.ok []
    expandSignerInfos := fun _ => some nodePlain
    findSignedAttrs := fun _ => some nodeWithDown
    copyTree := fun _ _ _ => Option.none
    encodeRoot := fun _ => Except.ok [] }

/-- Container at DATAREADY with one signer that owns a certificate but
has no preset message digest, and one digest algorithm. -/
def cmsC5 : CMS :=
  { cert_list := [⟨some (), []⟩]
    digest_algos := [some "1.3.14.3.2.26"] }

/-- A `_ksba_cms_parse_content_info` run that succeeds and records the
given content OID. -/
def pciWith (oid : String) : CMS → Option KsbaError × CMS :=
  fun c => (Option.none, { c with content_oid := some oid })

/-- A handler dispatch used where the dispatch is irrelevant. -/
def runHandler0 : HandlerTag → CMS → Option KsbaError × CMS :=
  fun _ c => (Option.none, c)

/-- An OID resolution returning the SHA-1 OID. -/
def toStrC9 : Option AsnNode → Option String := fun _ => some "1.3.14.3.2.26"

/-- Container with a parsed `SignerInfos` tree and an empty digest-algo
cache. -/
def cmsC9 : CMS := { signer_info_root := some nodePlain }

/-! Theorems settling the claims. -/

/-- C1: with a registered hash function and the stored `signedAttrs` node
located at offset `off` with header length `nhdr` and content length
`len` (the region lying inside the `signer_info` image),
`ksba_cms_hash_signed_attrs` at index 0 feeds to `hash_fnc` exactly the
byte `0x31` followed by the image bytes from `off + 1` for
`nhdr + len - 1` bytes: a sequence that begins with `0x31` and has total
length `1 + (nhdr + len - 1)`. -/
theorem hash_signed_attrs_feeds_set_tag (cms : CMS)
    (findNode : Option AsnNode → Option AsnNode) (n : AsnNode) (off : Nat)
    (hHash : cms.hash_fnc = true)
    (hFind : findNode cms.signer_info_root = some n)
    (hOff : n.off = some off)
    (hLen : 1 ≤ n.nhdr + n.len)
    (hBound : off + 1 + (n.nhdr + n.len - 1) ≤ cms.signer_info_image.length) :
    ksba_cms_hash_signed_attrs cms 0 findNode =
      Except.ok (0x31 ::
        ((cms.signer_info_image.drop (off + 1)).take (n.nhdr + n.len - 1))) ∧
    (0x31 ::
        ((cms.signer_info_image.drop (off + 1)).take (n.nhdr + n.len - 1))).head?
      = some 0x31 ∧
    (0x31 ::
        ((cms.signer_info_image.drop (off + 1)).take (n.nhdr + n.len - 1))).length
      = 1 + (n.nhdr + n.len - 1) := by
  refine ⟨?_, rfl, ?_⟩
  · simp [ksba_cms_hash_signed_attrs, hHash, hFind, hOff]
  · simp only [List.length_cons, List.length_take, List.length_drop]
    omega

/-- Witness for C1 at a concrete container: the fed sequence is
`[0x31, 0x03, 0x01, 0x02, 0x03]`. -/
theorem hash_signed_attrs_feeds_set_tag_witness :
    ksba_cms_hash_signed_attrs cmsC1 0 findC1 =
      Except.ok [0x31, 0x03, 0x01, 0x02, 0x03] ∧
    (5 : Nat) = 1 + (nC1.nhdr + nC1.len - 1) := by
  have h := hash_signed_attrs_feeds_set_tag cmsC1 findC1 nC1 0 rfl rfl rfl
    (by decide) (by decide)
  exact ⟨h.1, by decide⟩

/-- C4: with a parsed `SignerInfos` tree and index 0,
`ksba_cms_get_message_digest` returns `DuplicateValue` when the
`messageDigest` attribute occurs twice in `signedAttrs`,
`InvalidCMSObject` when the single occurrence is not shaped as a SET OF
exactly one OCTET STRING, and `ValueNotFound` when `signedAttrs` is
present but carries no `messageDigest` attribute. -/
theorem get_message_digest_errors (cms : CMS) (root nsig : AsnNode)
    (fsa : AsnNode → Option AsnNode) (ftv : AsnNode → Nat → Option AsnNode)
    (hRoot : cms.signer_info_root = some root)
    (hFind : fsa root = some nsig) :
    ((∃ n, ftv nsig 0 = some n) → (∃ m, ftv nsig 1 = some m) →
      ksba_cms_get_message_digest cms 0 fsa ftv =
        Except.error KsbaError.duplicateValue) ∧
    (∀ n, ftv nsig 0 = some n → ftv nsig 1 = Option.none →
      digestShapeOk n = false →
      ksba_cms_get_message_digest cms 0 fsa ftv =
        Except.error KsbaError.invalidCMSObject) ∧
    (ftv nsig 0 = Option.none →
      ksba_cms_get_message_digest cms 0 fsa ftv =
        Except.error KsbaError.valueNotFound) := by
  refine ⟨?_, ?_, ?_⟩
  · rintro ⟨n, hn⟩ ⟨m, hm⟩
    simp [ksba_cms_get_message_digest, hRoot, hFind, hn, hm]
  · intro n hn hm hshape
    simp [ksba_cms_get_message_digest, hRoot, hFind, hn, hm, hshape]
  · intro hn
    simp [ksba_cms_get_message_digest, hRoot, hFind, hn]

/-- Witness for C4: the three error returns at concrete containers and
lookup results. -/
theorem get_message_digest_errors_witness :
    ksba_cms_get_message_digest cmsMD 0 fsaMD ftvDup =
      Except.error KsbaError.duplicateValue ∧
    ksba_cms_get_message_digest cmsMD 0 fsaMD ftvBad =
      Except.error KsbaError.invalidCMSObject ∧
    ksba_cms_get_message_digest cmsMD 0 fsaMD ftvNone =
      Except.error KsbaError.valueNotFound := by
  refine ⟨?_, ?_, ?_⟩
  · exact (get_message_digest_errors cmsMD nodePlain nodePlain fsaMD ftvDup
      rfl rfl).1 ⟨nodePlain, rfl⟩ ⟨nodePlain, rfl⟩
  · exact (get_message_digest_errors cmsMD nodePlain nodePlain fsaMD ftvBad
      rfl rfl).2.1 nodePlain rfl rfl rfl
  · exact (get_message_digest_errors cmsMD nodePlain nodePlain fsaMD ftvNone
      rfl rfl).2.2 rfl

/-- C9: with a parsed `SignerInfos` tree, once a call to
`ksba_cms_get_digest_algo` at index 0 has returned an OID string, the
string is cached in `signer_info.cache.digest_algo`, and every repeated
call returns that very cached string and leaves the container unchanged
(idempotence and pointer stability), regardless of any further ASN.1
lookups. -/
theorem get_digest_algo_idempotent (cms : CMS) (root : AsnNode) (a : String)
    (findAlgo : Option AsnNode) (toStr : Option AsnNode → Option String)
    (hRoot : cms.signer_info_root = some root)
    (hFirst : (ksba_cms_get_digest_algo cms 0 findAlgo toStr).1 = some a) :
    ((ksba_cms_get_digest_algo cms 0 findAlgo toStr).2).signer_info_cache_digest_algo
      = some a ∧
    ∀ find2 toStr2,
      ksba_cms_get_digest_algo
          ((ksba_cms_get_digest_algo cms 0 findAlgo toStr).2) 0 find2 toStr2 =
        (some a, (ksba_cms_get_digest_algo cms 0 findAlgo toStr).2) := by
  have hcache :
      ((ksba_cms_get_digest_algo cms 0 findAlgo toStr).2).signer_info_cache_digest_algo
        = some a := by
    cases hc : cms.signer_info_cache_digest_algo with
    | none =>
      cases ht : toStr findAlgo with
      | none => simp [ksba_cms_get_digest_algo, hRoot, hc, ht] at hFirst
      | some b =>
        have : b = a := by
          simpa [ksba_cms_get_digest_algo, hRoot, hc, ht] using hFirst
        simp [ksba_cms_get_digest_algo, hRoot, hc, ht, this]
    | some b =>
      have : b = a := by
        simpa [ksba_cms_get_digest_algo, hRoot, hc] using hFirst
      simp [ksba_cms_get_digest_algo, hRoot, hc, this]
  have hroot2 :
      ((ksba_cms_get_digest_algo cms 0 findAlgo toStr).2).signer_info_root
        = some root := by
    cases hc : cms.signer_info_cache_digest_algo with
    | none =>
      cases ht : toStr findAlgo with
      | none => simp [ksba_cms_get_digest_algo, hRoot, hc, ht]
      | some b => simp [ksba_cms_get_digest_algo, hRoot, hc, ht]
    | some b => simp [ksba_cms_get_digest_algo, hRoot, hc]
  refine ⟨hcache, fun find2 toStr2 => ?_⟩
  generalize (ksba_cms_get_digest_algo cms 0 findAlgo toStr).2 = c1 at hroot2 hcache ⊢
  simp [ksba_cms_get_digest_algo, hroot2, hcache]

/-- Witness for C9 at a concrete container: the second call returns the
cached OID and the cached state, for a second lookup that would resolve
differently. -/
theorem get_digest_algo_idempotent_witness :
    ksba_cms_get_digest_algo
        ((ksba_cms_get_digest_algo cmsC9 0 Option.none toStrC9).2) 0 Option.none
        (fun _ => Option.none) =
      (some "1.3.14.3.2.26",
       (ksba_cms_get_digest_algo cmsC9 0 Option.none toStrC9).2) := by
  exact (get_digest_algo_idempotent cmsC9 nodePlain "1.3.14.3.2.26" Option.none
    toStrC9 rfl rfl).2 Option.none (fun _ => Option.none)

/-- Counterexample for C8: with a parsed `SignerInfos` tree,
`ksba_cms_get_issuer_serial` called with `idx = 1` does not return
`NotImplemented`: it succeeds and returns the data of the single signer,
because the source never examines `idx`. -/
theorem issuer_serial_idx_counterexample :
    ksba_cms_get_issuer_serial cmsMD 1 false true Option.none
        (Except.ok "") (some nSerC8) =
      Except.ok (Option.none, some [0, 0, 0, 3, 14, 15, 16]) ∧
    ksba_cms_get_issuer_serial cmsMD 1 false true Option.none
        (Except.ok "") (some nSerC8) ≠
      Except.error KsbaError.notImplemented := by
  have h : ksba_cms_get_issuer_serial cmsMD 1 false true Option.none
      (Except.ok "") (some nSerC8) =
      Except.ok (Option.none, some [0, 0, 0, 3, 14, 15, 16]) := rfl
  exact ⟨h, by rw [h]; intro hc; exact Except.noConfusion hc⟩

/-- C8 (amended): `ksba_cms_get_issuer_serial` ignores `idx` entirely:
for every index the result equals the result at index 0 (the data of the
single signer at index 0), and in particular a successful serial lookup
at any `idx` returns the serial content length as four big-endian bytes
followed by the content bytes. -/
theorem issuer_serial_idx_independent (cms : CMS) (idx : Nat)
    (wantIssuer wantSerial : Bool) (fi : Option AsnNode)
    (dn : Except KsbaError String) (fs : Option AsnNode)
    (root n : AsnNode) (off : Nat)
    (hRoot : cms.signer_info_root = some root) :
    ksba_cms_get_issuer_serial cms idx wantIssuer wantSerial fi dn fs =
      ksba_cms_get_issuer_serial cms 0 wantIssuer wantSerial fi dn fs ∧
    (wantIssuer = false → wantSerial = true → fs = some n → n.off = some off →
      ksba_cms_get_issuer_serial cms idx wantIssuer wantSerial fi dn fs =
        Except.ok (Option.none,
          some ([n.len / 2 ^ 24 % 256, n.len / 2 ^ 16 % 256,
                 n.len / 2 ^ 8 % 256, n.len % 256] ++
            (cms.signer_info_image.drop (off + n.nhdr)).take n.len))) := by
  refine ⟨rfl, ?_⟩
  intro hI hS hf hoff
  simp [ksba_cms_get_issuer_serial, hRoot, hI, hS, hf, hoff]

/-- Witness for C8's amended theorem at a concrete container and
`idx = 5`. -/
theorem issuer_serial_idx_independent_witness :
    ksba_cms_get_issuer_serial cmsMD 5 false true Option.none
        (Except.ok "") (some nSerC8) =
      Except.ok (Option.none, some [0, 0, 0, 3, 14, 15, 16]) := by
  have h := (issuer_serial_idx_independent cmsMD 5 false true Option.none
    (Except.ok "") (some nSerC8) nodePlain nSerC8 2 rfl).2 rfl rfl rfl rfl
  exact h

/-- Counterexample for C2: a container entering START whose signer list
holds a record with a preset message digest (the second, earlier-added
one) while the first record has none.  The START step succeeds, yet
`detached_signature` is set to `false` and the stop reason becomes
`BEGIN_DATA`: the code consults only the head of `cert_list`, not "at
least one signer". -/
theorem build_start_detached_counterexample :
    (cmsC2.cert_list.any fun cl => !cl.msg_digest.isEmpty) = true ∧
    (ct_build_signed_data hdrOk actOk actOk cmsC2).1 = Option.none ∧
    (ct_build_signed_data hdrOk actOk actOk cmsC2).2.detached_signature = false ∧
    (ct_build_signed_data hdrOk actOk actOk cmsC2).2.stop_reason =
      KsbaStopReason.beginData := by
  exact ⟨rfl, rfl, rfl, rfl⟩

/-- C2 (amended): entering START (previous stop reason `GOT_CONTENT`),
`detached_signature` is set to `true` iff the signer list is nonempty
and its first record — the most recently added signer — has a preset
message digest; when the header emission succeeds the step returns
success and the stop reason becomes `END_DATA` if `detached_signature`
is true and `BEGIN_DATA` otherwise. -/
theorem build_start_detached (hdr : CMS → Option KsbaError)
    (attrs rest : CMS → Option KsbaError × CMS) (cms : CMS) (d : Bool)
    (hStop : cms.stop_reason = KsbaStopReason.gotContent)
    (hd : d = (match cms.cert_list with
               | [] => false
               | cl :: _ => !cl.msg_digest.isEmpty))
    (hHdr : hdr { cms with
                  stop_reason := KsbaStopReason.running
                  detached_signature := d } = Option.none) :
    ct_build_signed_data hdr attrs rest cms =
      (Option.none,
       { cms with
         detached_signature := d
         stop_reason := if d then KsbaStopReason.endData
                        else KsbaStopReason.beginData }) := by
  simp only [ct_build_signed_data, hStop, ← hd]
  rw [show ({ cms with stop_reason := KsbaStopReason.running } : CMS).cert_list
        = cms.cert_list from rfl] at *
  simp only [← hd, hHdr]

/-- Witness for C2's amended theorem: one signer with a preset digest
gives a detached signature and stop reason `END_DATA`. -/
theorem build_start_detached_witness :
    ct_build_signed_data hdrOk actOk actOk
        { stop_reason := KsbaStopReason.gotContent
          cert_list := [⟨some (), [5]⟩] } =
      (Option.none,
       { stop_reason := KsbaStopReason.endData
         cert_list := [⟨some (), [5]⟩]
         detached_signature := true }) := by
  exact build_start_detached hdrOk actOk actOk
    { stop_reason := KsbaStopReason.gotContent
      cert_list := [⟨some (), [5]⟩] } true rfl rfl rfl

/-- C3: for every successful signed-data parse step: from START (entered
from `GOT_CONTENT`) the next stop reason is `NEED_HASH` when
`detached_signature` is set and no pre-loaded digest is present and
`BEGIN_DATA` otherwise; from IN_DATA (entered from `BEGIN_DATA`, hash
function registered) the engine does no work — the result does not
depend on the stage parsers and the container is unchanged except for
the stop reason — and the next stop reason is `END_DATA`; from GOT_HASH
(entered from `NEED_HASH` or `END_DATA`) the next stop reason is
`READY`. -/
theorem parse_signed_data_stop_reasons
    (part1 part2 : CMS → Option KsbaError × CMS) (cms c2 : CMS) :
    (cms.stop_reason = KsbaStopReason.gotContent →
      part1 { cms with stop_reason := KsbaStopReason.running } =
        (Option.none, c2) →
      ct_parse_signed_data part1 part2 cms =
        (Option.none,
         { c2 with
           stop_reason :=
             if c2.detached_signature && c2.data_digest.isNone
             then KsbaStopReason.needHash else KsbaStopReason.beginData })) ∧
    (cms.stop_reason = KsbaStopReason.beginData → cms.hash_fnc = true →
      ct_parse_signed_data part1 part2 cms =
        (Option.none, { cms with stop_reason := KsbaStopReason.endData })) ∧
    (cms.stop_reason = KsbaStopReason.needHash →
      part2 { cms with stop_reason := KsbaStopReason.running } =
        (Option.none, c2) →
      ct_parse_signed_data part1 part2 cms =
        (Option.none, { c2 with stop_reason := KsbaStopReason.ready })) ∧
    (cms.stop_reason = KsbaStopReason.endData →
      part2 { cms with stop_reason := KsbaStopReason.running } =
        (Option.none, c2) →
      ct_parse_signed_data part1 part2 cms =
        (Option.none, { c2 with stop_reason := KsbaStopReason.ready })) := by
  refine ⟨?_, ?_, ?_, ?_⟩
  · intro hStop hPart
    simp [ct_parse_signed_data, hStop, hPart]
  · intro hStop hHash
    simp [ct_parse_signed_data, hStop, hHash]
  · intro hStop hPart
    simp [ct_parse_signed_data, hStop, hPart]
  · intro hStop hPart
    simp [ct_parse_signed_data, hStop, hPart]

/-- Witness for C3 at concrete containers: the START step of a
non-detached parse stops at `BEGIN_DATA`, the IN_DATA step stops at
`END_DATA`, and the GOT_HASH step stops at `READY`. -/
theorem parse_signed_data_stop_reasons_witness :
    ct_parse_signed_data actOk actOk { stop_reason := KsbaStopReason.gotContent } =
      (Option.none, { stop_reason := KsbaStopReason.beginData }) ∧
    ct_parse_signed_data actOk actOk
        { stop_reason := KsbaStopReason.beginData
          hash_fnc := true } =
      (Option.none, { stop_reason := KsbaStopReason.endData
                      hash_fnc := true }) ∧
    ct_parse_signed_data actOk actOk { stop_reason := KsbaStopReason.endData } =
      (Option.none, { stop_reason := KsbaStopReason.ready }) := by
  refine ⟨?_, ?_, ?_⟩
  · exact (parse_signed_data_stop_reasons actOk actOk
      { stop_reason := KsbaStopReason.gotContent }
      { stop_reason := KsbaStopReason.running }).1 rfl rfl
  · exact (parse_signed_data_stop_reasons actOk actOk
      { stop_reason := KsbaStopReason.beginData, hash_fnc := true }
      { stop_reason := KsbaStopReason.running }).2.1 rfl rfl
  · exact (parse_signed_data_stop_reasons actOk actOk
      { stop_reason := KsbaStopReason.endData }
      { stop_reason := KsbaStopReason.running }).2.2.2 rfl rfl

/-- Counterexample for C5: at DATAREADY with one signer that owns a
certificate but has no preset message digest (and a digest algorithm
registered, all collaborator calls succeeding),
`build_signed_data_attributes` does not return `MissingValue`: it trips
the C assertion `assert (certlist && certlist->msg_digest_len)` and
aborts. -/
theorem build_attributes_assert_counterexample :
    build_signed_data_attributes extOkC5 cmsC5 = BResult.assertFailed ∧
    build_signed_data_attributes extOkC5 cmsC5 ≠
      BResult.error KsbaError.missingValue := by
  have h : build_signed_data_attributes extOkC5 cmsC5 = BResult.assertFailed := rfl
  refine ⟨h, ?_⟩
  rw [h]
  intro hc
  exact BResult.noConfusion hc

/-- C5 (amended): when `build_signed_data_attributes` is reached (the
end-of-contents write and the ASN.1 module-tree creation succeeding), an
empty signer list returns `MissingValue` and an empty digest-algorithm
list with signers present returns `MissingValue`; but a signer record
with a certificate and a digest algorithm whose preset message digest is
missing does not return `MissingValue` — it fails the assertion
`certlist && certlist->msg_digest_len`, aborting the process. -/
theorem build_attributes_missing_values (ext : AttrExt) (cms : CMS)
    (hW : ext.writeEndTag = Option.none) (hT : ext.createTree = Option.none) :
    (cms.cert_list = [] →
      build_signed_data_attributes ext cms =
        BResult.error KsbaError.missingValue) ∧
    (∀ cl cls, cms.cert_list = cl :: cls → cms.digest_algos = [] →
      build_signed_data_attributes ext cms =
        BResult.error KsbaError.missingValue) ∧
    (∀ cl cls d ds attr nT nV nVal,
      cms.cert_list = cl :: cls → cms.digest_algos = some d :: ds →
      cl.cert = some () → cl.msg_digest = [] →
      ext.expandAttribute 0 = some attr →
      ext.findAttrType attr = some nT →
      ext.storeOid nT oidstr_messageDigest = Option.none →
      ext.findAttrValues attr = some nV →
      nV.down = some nVal →
      build_signed_data_attributes ext cms = BResult.assertFailed) := by
  refine ⟨?_, ?_, ?_⟩
  · intro hc
    simp [build_signed_data_attributes, hW, hT, hc]
  · intro cl cls hc hd
    simp [build_signed_data_attributes, hW, hT, hc, hd]
  · intro cl cls d ds attr nT nV nVal hc hd hcert hmd hexp hfat hso hfav hdown
    simp [build_signed_data_attributes, hW, hT, hc, hd, build_attrs_loop,
      hcert, hexp, hfat, hso, hfav, hdown, hmd]

/-- Witness for C5's amended theorem: the two `MissingValue` returns and
the assertion failure at concrete containers. -/
theorem build_attributes_missing_values_witness :
    build_signed_data_attributes extOkC5 { cert_list := [] } =
      BResult.error KsbaError.missingValue ∧
    build_signed_data_attributes extOkC5 { cert_list := [⟨some (), [5]⟩] } =
      BResult.error KsbaError.missingValue ∧
    build_signed_data_attributes extOkC5 cmsC5 = BResult.assertFailed := by
  refine ⟨?_, ?_, ?_⟩
  · exact (build_attributes_missing_values extOkC5 { cert_list := [] }
      rfl rfl).1 rfl
  · exact (build_attributes_missing_values extOkC5
      { cert_list := [⟨some (), [5]⟩] } rfl rfl).2.1 ⟨some (), [5]⟩ [] rfl rfl
  · exact (build_attributes_missing_values extOkC5 cmsC5 rfl rfl).2.2
      ⟨some (), []⟩ [] "1.3.14.3.2.26" [] nodePlain nodePlain nodeWithDown
      nodePlain rfl rfl rfl rfl rfl rfl rfl rfl rfl

/-- C6: on the first call to `ksba_cms_parse` (stored stop reason still
the initial zero) after the outer ContentInfo was read successfully: a
content OID matching no dispatcher row returns `UnknownCMSObject`; the
auth-data OID, whose row has a null parse handler, returns
`UnsupportedCMSObject`; and an OID matching a row with a parse handler
installs that row's content type and handler and sets the stop reason to
`GOT_CONTENT`. -/
theorem parse_initial_dispatch (pci : CMS → Option KsbaError × CMS)
    (runHandler : HandlerTag → CMS → Option KsbaError × CMS)
    (cms c1 : CMS) (o : String)
    (hStop : cms.stop_reason = KsbaStopReason.none)
    (hPci : pci cms = (Option.none, c1))
    (hOid : c1.content_oid = some o) :
    ((∀ row ∈ content_handlers, row.oid ≠ o) →
      ksba_cms_parse pci runHandler cms =
        (some KsbaError.unknownCMSObject, KsbaStopReason.running, c1)) ∧
    (o = "1.2.840.113549.1.9.16.1.2" →
      ksba_cms_parse pci runHandler cms =
        (some KsbaError.unsupportedCMSObject, KsbaStopReason.running, c1)) ∧
    (∀ row h,
      content_handlers.find? (fun r => c1.content_oid = some r.oid) = some row →
      row.parse_handler = some h →
      ksba_cms_parse pci runHandler cms =
        (Option.none, KsbaStopReason.gotContent,
         { c1 with
           content_ct := some row.ct
           content_handler := some h
           stop_reason := KsbaStopReason.gotContent })) := by
  refine ⟨?_, ?_, ?_⟩
  · intro hNo
    have hFind :
        content_handlers.find? (fun r => c1.content_oid = some r.oid) =
          Option.none := by
      rw [List.find?_eq_none]
      intro row hrow
      simp only [hOid, decide_eq_true_eq, Option.some.injEq]
      exact fun hEq => hNo row hrow hEq.symm
    simp [ksba_cms_parse, hStop, hPci, hFind]
  · intro hAuth
    have hFind :
        content_handlers.find? (fun r => c1.content_oid = some r.oid) =
          some ⟨"1.2.840.113549.1.9.16.1.2", ContentType.authData,
                Option.none, Option.none⟩ := by
      subst hAuth
      simp [content_handlers, List.find?, hOid]
    simp [ksba_cms_parse, hStop, hPci, hFind]
  · intro row h hFind hHandler
    simp [ksba_cms_parse, hStop, hPci, hFind, hHandler]

/-- Witness for C6: the unknown OID `1.2.3.4`, the auth-data OID, and the
signed-data OID at concrete containers. -/
theorem parse_initial_dispatch_witness :
    ksba_cms_parse (pciWith "1.2.3.4") runHandler0 {} =
      (some KsbaError.unknownCMSObject, KsbaStopReason.running,
       { content_oid := some "1.2.3.4" }) ∧
    ksba_cms_parse (pciWith "1.2.840.113549.1.9.16.1.2") runHandler0 {} =
      (some KsbaError.unsupportedCMSObject, KsbaStopReason.running,
       { content_oid := some "1.2.840.113549.1.9.16.1.2" }) ∧
    ksba_cms_parse (pciWith "1.2.840.113549.1.7.2") runHandler0 {} =
      (Option.none, KsbaStopReason.gotContent,
       { content_oid := some "1.2.840.113549.1.7.2"
         content_ct := some ContentType.signedData
         content_handler := some HandlerTag.hSignedData
         stop_reason := KsbaStopReason.gotContent }) := by
  refine ⟨?_, ?_, ?_⟩
  · exact (parse_initial_dispatch (pciWith "1.2.3.4") runHandler0 {}
      { content_oid := some "1.2.3.4" } "1.2.3.4" rfl rfl rfl).1
      (by decide)
  · exact (parse_initial_dispatch (pciWith "1.2.840.113549.1.9.16.1.2")
      runHandler0 {} { content_oid := some "1.2.840.113549.1.9.16.1.2" }
      "1.2.840.113549.1.9.16.1.2" rfl rfl rfl).2.1 rfl
  · exact (parse_initial_dispatch (pciWith "1.2.840.113549.1.7.2")
      runHandler0 {} { content_oid := some "1.2.840.113549.1.7.2" }
      "1.2.840.113549.1.7.2" rfl rfl rfl).2.2
      ⟨"1.2.840.113549.1.7.2", ContentType.signedData,
        some HandlerTag.hSignedData, some HandlerTag.hSignedData⟩
      HandlerTag.hSignedData (by decide) rfl

/-- C7: `ct_parse_signed_data` and `ct_build_signed_data` called while
the stored stop reason is `RUNNING` fail with `InvalidState` (leaving
the stop reason at `RUNNING`); likewise every stored stop reason outside
the values the respective engine handles (
parse: `GOT_CONTENT`, `NEED_HASH`, `BEGIN_DATA`, `END_DATA`;
build: `GOT_CONTENT`, `BEGIN_DATA`, `END_DATA`, `NEED_SIG`) makes the
call fail — in particular every value outside the defined protocol
values. -/
theorem engine_invalid_state (part1 part2 : CMS → Option KsbaError × CMS)
    (hdr : CMS → Option KsbaError) (attrs rest : CMS → Option KsbaError × CMS)
    (cms : CMS) :
    (cms.stop_reason = KsbaStopReason.running →
      ct_parse_signed_data part1 part2 cms =
        (some KsbaError.invalidState,
         { cms with stop_reason := KsbaStopReason.running })) ∧
    (cms.stop_reason = KsbaStopReason.running →
      ct_build_signed_data hdr attrs rest cms =
        (some KsbaError.invalidState,
         { cms with stop_reason := KsbaStopReason.running })) ∧
    (cms.stop_reason ∉ [KsbaStopReason.gotContent, KsbaStopReason.needHash,
        KsbaStopReason.beginData, KsbaStopReason.endData] →
      ∃ e, (ct_parse_signed_data part1 part2 cms).1 = some e) ∧
    (cms.stop_reason ∉ [KsbaStopReason.gotContent, KsbaStopReason.beginData,
        KsbaStopReason.endData, KsbaStopReason.needSig] →
      ∃ e, (ct_build_signed_data hdr attrs rest cms).1 = some e) := by
  refine ⟨?_, ?_, ?_, ?_⟩
  · intro hs
    simp [ct_parse_signed_data, hs]
  · intro hs
    simp [ct_build_signed_data, hs]
  · intro hmem
    cases hs : cms.stop_reason with
    | none => exact ⟨KsbaError.invalidState, by simp [ct_parse_signed_data, hs]⟩
    | running => exact ⟨KsbaError.invalidState, by simp [ct_parse_signed_data, hs]⟩
    | needSig => exact ⟨KsbaError.bug, by simp [ct_parse_signed_data, hs]⟩
    | ready => exact ⟨KsbaError.bug, by simp [ct_parse_signed_data, hs]⟩
    | gotContent => exact absurd (by rw [hs]; simp) hmem
    | needHash => exact absurd (by rw [hs]; simp) hmem
    | beginData => exact absurd (by rw [hs]; simp) hmem
    | endData => exact absurd (by rw [hs]; simp) hmem
  · intro hmem
    cases hs : cms.stop_reason with
    | none => exact ⟨KsbaError.invalidState, by simp [ct_build_signed_data, hs]⟩
    | running => exact ⟨KsbaError.invalidState, by simp [ct_build_signed_data, hs]⟩
    | needHash => exact ⟨KsbaError.bug, by simp [ct_build_signed_data, hs]⟩
    | ready => exact ⟨KsbaError.bug, by simp [ct_build_signed_data, hs]⟩
    | gotContent => exact absurd (by rw [hs]; simp) hmem
    | beginData => exact absurd (by rw [hs]; simp) hmem
    | endData => exact absurd (by rw [hs]; simp) hmem
    | needSig => exact absurd (by rw [hs]; simp) hmem

/-- Witness for C7: both engines at a concrete container whose stop
reason is `RUNNING`, and a concrete unhandled stop reason (`READY`). -/
theorem engine_invalid_state_witness :
    ct_parse_signed_data actOk actOk { stop_reason := KsbaStopReason.running } =
      (some KsbaError.invalidState, { stop_reason := KsbaStopReason.running }) ∧
    ct_build_signed_data hdrOk actOk actOk
        { stop_reason := KsbaStopReason.running } =
      (some KsbaError.invalidState, { stop_reason := KsbaStopReason.running }) ∧
    (∃ e, (ct_parse_signed_data actOk actOk
        { stop_reason := KsbaStopReason.ready }).1 = some e) := by
  refine ⟨?_, ?_, ?_⟩
  · exact (engine_invalid_state actOk actOk hdrOk actOk actOk
      { stop_reason := KsbaStopReason.running }).1 rfl
  · exact (engine_invalid_state actOk actOk hdrOk actOk actOk
      { stop_reason := KsbaStopReason.running }).2.1 rfl
  · exact (engine_invalid_state actOk actOk hdrOk actOk actOk
      { stop_reason := KsbaStopReason.ready }).2.2.1 (by decide)

/-- C10: for every signed-data parse or build step entered past the
initial state, when the step returns an error (whether `InvalidState`
from the entry checks or an error raised inside the state action) the
stored stop reason has already been reset to `RUNNING` and is not
restored; and from a container whose stop reason is `RUNNING` both
engines fail with `InvalidState` and leave `RUNNING` in place, so the
operation can never be resumed.  The hypotheses on the action functions
record that the real stage actions never assign `cms->stop_reason`. -/
theorem engine_error_terminal (part1 part2 : CMS → Option KsbaError × CMS)
    (hdr : CMS → Option KsbaError) (attrs rest : CMS → Option KsbaError × CMS)
    (cms : CMS)
    (hp1 : ∀ c, ((part1 c).2).stop_reason = c.stop_reason)
    (hp2 : ∀ c, ((part2 c).2).stop_reason = c.stop_reason)
    (ha : ∀ c, ((attrs c).2).stop_reason = c.stop_reason)
    (hr : ∀ c, ((rest c).2).stop_reason = c.stop_reason) :
    (∀ e, cms.stop_reason ≠ KsbaStopReason.none →
      (ct_parse_signed_data part1 part2 cms).1 = some e →
      ((ct_parse_signed_data part1 part2 cms).2).stop_reason =
        KsbaStopReason.running) ∧
    (∀ e, cms.stop_reason ≠ KsbaStopReason.none →
      (ct_build_signed_data hdr attrs rest cms).1 = some e →
      ((ct_build_signed_data hdr attrs rest cms).2).stop_reason =
        KsbaStopReason.running) ∧
    (cms.stop_reason = KsbaStopReason.running →
      ct_parse_signed_data part1 part2 cms =
        (some KsbaError.invalidState,
         { cms with stop_reason := KsbaStopReason.running }) ∧
      ct_build_signed_data hdr attrs rest cms =
        (some KsbaError.invalidState,
         { cms with stop_reason := KsbaStopReason.running })) := by
  refine ⟨?_, ?_, ?_⟩
  · intro e hne hErr
    cases hs : cms.stop_reason with
    | none => exact absurd hs hne
    | running => simp [ct_parse_signed_data, hs]
    | needSig => simp [ct_parse_signed_data, hs]
    | ready => simp [ct_parse_signed_data, hs]
    | gotContent =>
      rcases hp : part1 { cms with stop_reason := KsbaStopReason.running } with
        ⟨oe, c⟩
      cases oe with
      | none => simp [ct_parse_signed_data, hs, hp] at hErr
      | some e1 =>
        have hpres := hp1 { cms with stop_reason := KsbaStopReason.running }
        rw [hp] at hpres
        simp only [ct_parse_signed_data, hs, hp]
        simpa using hpres
    | needHash =>
      rcases hp : part2 { cms with stop_reason := KsbaStopReason.running } with
        ⟨oe, c⟩
      cases oe with
      | none => simp [ct_parse_signed_data, hs, hp] at hErr
      | some e1 =>
        have hpres := hp2 { cms with stop_reason := KsbaStopReason.running }
        rw [hp] at hpres
        simp only [ct_parse_signed_data, hs, hp]
        simpa using hpres
    | endData =>
      rcases hp : part2 { cms with stop_reason := KsbaStopReason.running } with
        ⟨oe, c⟩
      cases oe with
      | none => simp [ct_parse_signed_data, hs, hp] at hErr
      | some e1 =>
        have hpres := hp2 { cms with stop_reason := KsbaStopReason.running }
        rw [hp] at hpres
        simp only [ct_parse_signed_data, hs, hp]
        simpa using hpres
    | beginData =>
      cases hf : cms.hash_fnc with
      | true => simp [ct_parse_signed_data, hs, hf] at hErr
      | false => simp [ct_parse_signed_data, hs, hf]
  · intro e hne hErr
    cases hs : cms.stop_reason with
    | none => exact absurd hs hne
    | running => simp [ct_build_signed_data, hs]
    | needHash => simp [ct_build_signed_data, hs]
    | ready => simp [ct_build_signed_data, hs]
    | gotContent =>
      cases hh : hdr { cms with
          stop_reason := KsbaStopReason.running
          detached_signature :=
            match cms.cert_list with
            | [] => false
            | cl :: _ => !cl.msg_digest.isEmpty } with
      | none => simp [ct_build_signed_data, hs, hh] at hErr
      | some e1 => simp [ct_build_signed_data, hs, hh]
    | beginData =>
      rcases hp : attrs { cms with stop_reason := KsbaStopReason.running } with
        ⟨oe, c⟩
      cases oe with
      | none => simp [ct_build_signed_data, hs, hp] at hErr
      | some e1 =>
        have hpres := ha { cms with stop_reason := KsbaStopReason.running }
        rw [hp] at hpres
        simp only [ct_build_signed_data, hs, hp]
        simpa using hpres
    | endData =>
      rcases hp : attrs { cms with stop_reason := KsbaStopReason.running } with
        ⟨oe, c⟩
      cases oe with
      | none => simp [ct_build_signed_data, hs, hp] at hErr
      | some e1 =>
        have hpres := ha { cms with stop_reason := KsbaStopReason.running }
        rw [hp] at hpres
        simp only [ct_build_signed_data, hs, hp]
        simpa using hpres
    | needSig =>
      rcases hp : rest { cms with stop_reason := KsbaStopReason.running } with
        ⟨oe, c⟩
      cases oe with
      | none => simp [ct_build_signed_data, hs, hp] at hErr
      | some e1 =>
        have hpres := hr { cms with stop_reason := KsbaStopReason.running }
        rw [hp] at hpres
        simp only [ct_build_signed_data, hs, hp]
        simpa using hpres
  · intro hs
    constructor
    · simp [ct_parse_signed_data, hs]
    · simp [ct_build_signed_data, hs]

/-- Witness for C10: a failing stage parser leaves a concrete container
at `RUNNING`, and the next parse call on that stuck container fails with
`InvalidState` without moving the stop reason. -/
theorem engine_error_terminal_witness :
    ((ct_parse_signed_data actBug actOk
        { stop_reason := KsbaStopReason.gotContent }).2).stop_reason =
      KsbaStopReason.running ∧
    ct_parse_signed_data actBug actOk
        { stop_reason := KsbaStopReason.running } =
      (some KsbaError.invalidState,
       { stop_reason := KsbaStopReason.running }) := by
  constructor
  · exact (engine_error_terminal actBug actOk hdrOk actOk actOk
      { stop_reason := KsbaStopReason.gotContent }
      (fun c => rfl) (fun c => rfl) (fun c => rfl) (fun c => rfl)).1
      KsbaError.bug (by decide) rfl
  · exact ((engine_error_terminal actBug actOk hdrOk actOk actOk
      { stop_reason := KsbaStopReason.running }
      (fun c => rfl) (fun c => rfl) (fun c => rfl) (fun c => rfl)).2.2 rfl).1
